import Mathlib

/-!
# Verification of the Triage & Matching Engine

A shallow embedding of the triage pipeline of `pizzaz_server_python`
(`main.py` care-locations branch of `_call_tool_request`, and the
`shared` modules `emergency_detection.py`, `service_detection.py`,
`geocoding.py`, `locations.py`).

Python strings are modelled as Lean `String`; every Python string
operation used by the engine (`strip`, `lower`, `split`, `replace`,
substring test, `int(...)`) is given an executable structural
definition over the underlying character list, mirroring CPython
semantics on the ASCII data this engine manipulates.

Haversine distance is a transcendental floating-point computation; the
pipeline is therefore parameterised by an abstract distance function
`dist : Coordinates → Coordinates → ℚ` standing for
`haversine_distance(user, facility)`.  All ordering/duplication/length
properties proved below hold for every such function.

Wall-clock time (`datetime.now()`) is modelled by an explicit
`TimeOfDay` parameter threaded to the hours evaluator; the several
`now()` calls inside one evaluation are taken at the same instant.
-/

namespace Pizzaz

/-! ## Python string primitives -/

/-- Python `str.strip()` over a character list: drop ASCII whitespace at both ends. -/
def stripChars (l : List Char) : List Char :=
  ((l.dropWhile Char.isWhitespace).reverse.dropWhile Char.isWhitespace).reverse

/-- Python `str.strip()`. -/
def pyStrip (s : String) : String := ⟨stripChars s.data⟩

/-- Python `str.lower()` (ASCII). -/
def pyLower (s : String) : String := ⟨s.data.map Char.toLower⟩

/-- Is the first list an initial segment of the second? -/
def listPrefixOf : List Char → List Char → Bool
  | [], _ => true
  | _ :: _, [] => false
  | x :: xs, y :: ys => x = y && listPrefixOf xs ys

/-- Does `needle` occur contiguously inside `hay`? -/
def containsSub (hay needle : List Char) : Bool :=
  match hay with
  | [] => needle.isEmpty
  | _ :: t => listPrefixOf needle hay || containsSub t needle

/-- Python `needle in hay` substring containment. -/
def strContains (hay needle : String) : Bool := containsSub hay.data needle.data

/-- Split a character list on a single separator character
(Python `str.split('-')` / `str.split(':')`); never returns `[]`. -/
def splitOnChar (c : Char) : List Char → List (List Char)
  | [] => [[]]
  | x :: xs =>
    let r := splitOnChar c xs
    if x = c then [] :: r
    else
      match r with
      | [] => [[x]]
      | y :: ys => (x :: y) :: ys

/-- One fuel-indexed step list for Python `str.replace(pat, "")`:
replace non-overlapping occurrences of `pat` left-to-right by nothing. -/
def removeSubAux (pat : List Char) : Nat → List Char → List Char
  | _, [] => []
  | 0, l => l
  | fuel + 1, x :: xs =>
    if pat ≠ [] ∧ listPrefixOf pat (x :: xs) = true then
      removeSubAux pat fuel ((x :: xs).drop pat.length)
    else
      x :: removeSubAux pat fuel xs

/-- Python `s.replace(pat, "")` for a non-empty pattern. -/
def removeSub (pat s : String) : String := ⟨removeSubAux pat.data s.data.length s.data⟩

/-- Tail of a CPython base-10 numeral body after its leading digit:
digits with single underscores allowed between digits (an underscore
must be followed by a digit, so `1_0` is accepted while `1__0` and
`1_` are not). -/
def pyNumeralTailOk : List Char → Bool
  | [] => true
  | '_' :: c :: rest => c.isDigit && pyNumeralTailOk (c :: rest)
  | '_' :: [] => false
  | c :: rest => c.isDigit && pyNumeralTailOk rest

/-- A CPython base-10 numeral body: a leading digit, then
`pyNumeralTailOk`. -/
def pyNumeralOk : List Char → Bool
  | [] => false
  | c :: rest => c.isDigit && pyNumeralTailOk rest

/-- The value of a numeral body, underscores skipped. -/
def pyNumeralVal (l : List Char) : Nat :=
  (l.filter (fun c => c ≠ '_')).foldl (fun acc c => acc * 10 + (c.toNat - 48)) 0

/-- Python `int(s)` in base 10: surrounding whitespace stripped, an
optional `+`/`-` sign, then a digit string with single underscores
permitted between digits (CPython accepts `int("+5") = 5` and
`int("1_0") = 10`); `none` models the raised `ValueError`. -/
def pyInt? (s : String) : Option Int :=
  let t := stripChars s.data
  match t with
  | '+' :: body => if pyNumeralOk body then some (pyNumeralVal body : Int) else none
  | '-' :: body => if pyNumeralOk body then some (-(pyNumeralVal body : Int)) else none
  | body => if pyNumeralOk body then some (pyNumeralVal body : Int) else none

/-- Python `str.split()` with no argument: whitespace runs, empties dropped. -/
def pyWords (s : String) : List String :=
  ((s.data.splitOnP Char.isWhitespace).map (fun l => (⟨l⟩ : String))).filter (· ≠ "")

/-! Helper lemmas about the string primitives. -/

theorem char_toLower_whitespace (c : Char) (h : c.isWhitespace = true) :
    c.toLower.isWhitespace = true := by
  have h' : c = ' ' ∨ c = '\t' ∨ c = '\r' ∨ c = '\n' := by
    simpa [Char.isWhitespace, Bool.or_eq_true, decide_eq_true_eq, or_assoc] using h
  rcases h' with h' | h' | h' | h' <;> subst h' <;> decide

theorem stripChars_eq_nil_iff (l : List Char) :
    stripChars l = [] ↔ ∀ c ∈ l, c.isWhitespace = true := by
  unfold stripChars
  rw [List.reverse_eq_nil_iff, List.dropWhile_eq_nil_iff]
  constructor
  · intro h c hc
    have hsplit := List.takeWhile_append_dropWhile (p := Char.isWhitespace) (l := l)
    rw [← hsplit] at hc
    rcases List.mem_append.mp hc with h1 | h1
    · exact List.mem_takeWhile_imp h1
    · exact h c (List.mem_reverse.mpr h1)
  · intro h c hc
    exact h c ((List.dropWhile_sublist _).subset (List.mem_reverse.mp hc))

theorem pyStrip_pyLower_of_pyStrip_eq_empty (s : String)
    (h : pyStrip s = "") : pyStrip (pyLower s) = "" := by
  have hd : stripChars s.data = [] := congrArg String.data h
  apply congrArg (fun l => (⟨l⟩ : String))
  rw [stripChars_eq_nil_iff] at hd ⊢
  intro c hc
  rcases List.mem_map.mp hc with ⟨c', hc', rfl⟩
  exact char_toLower_whitespace c' (hd c' hc')

theorem strContains_empty_hay {needle : String}
    (h : strContains "" needle = true) : needle = "" := by
  cases needle with
  | mk d =>
    cases d with
    | nil => rfl
    | cons x xs => simp [strContains, containsSub, List.isEmpty] at h

/-! ## Data model

`Facility` records (`Location` below) mirror the dictionary fields the
engine reads: `loc.get("id")`, `loc.get("name")`, `loc.get("address_plain")`,
`loc.get("coordinates")` (a `{lat, lng}` object), `loc.get("services")`
(categories with `values` each holding a `val` string), `loc.get("hours_today")`
(`is24hours` / `start` / `end`), and the urgent/express flags.  Missing keys
are `Option.none`; absent booleans are `false` (both are falsy in the source).
Coordinates are rational stand-ins for the source's floats. -/

structure Coordinates where
  lat : ℚ
  lng : ℚ
  deriving DecidableEq, Repr

structure ServiceItem where
  val : String
  deriving DecidableEq, Repr

structure ServiceCategory where
  name : String
  values : List ServiceItem
  deriving DecidableEq, Repr

structure HoursToday where
  is24hours : Bool
  start : Option String
  endTime : Option String
  deriving DecidableEq, Repr

structure Location where
  id : Option String
  name : Option String
  address_plain : Option String
  coordinates : Option Coordinates
  services : List ServiceCategory
  hours_today : Option HoursToday
  is_urgent_care : Bool
  is_express_care : Bool
  deriving DecidableEq, Repr

/-- The validated tool input (`CareLocationInput`): `reason` and `location`
default to `""` (a `None` value behaves identically to `""` everywhere the
engine reads them); `filter_services = []` models the absent/`None` filter
list (both falsy). -/
structure CareLocationInput where
  reason : String
  location : String
  filter_services : List String
  deriving DecidableEq, Repr

/-- Wall-clock time of day used by the hours evaluator (`datetime.now()`).
The sub-second component is identical across the `now()` calls of one
evaluation and cancels out of every comparison, so it is omitted. -/
structure TimeOfDay where
  hour : Nat
  minute : Nat
  second : Nat
  deriving DecidableEq, Repr

/-- The per-request projection built for each surviving facility. -/
structure ProcessedLocation where
  id : Option String
  name : Option String
  coordinates : Option Coordinates
  distance : Option ℚ
  match_reason : Option String
  is_open_now : Bool
  open_status : String
  deriving DecidableEq, Repr

/-- The observable result of the care-locations tool call
(`structured_content`): emergency flag/warning, resolved user
coordinates, the final location list, and the detected service
requirements (absent — `[]` — on the emergency payload). -/
structure TriageResult where
  is_emergency : Bool
  emergency_warning : Option String
  user_coords : Option Coordinates
  locations : List ProcessedLocation
  service_requirements : List String
  deriving DecidableEq, Repr

/-! ## Emergency detection (`shared/emergency_detection.py`) -/

/-- The fixed ordered red-flag table of `detect_er_red_flags`. -/
def red_flags : List (List String × String) := [
  (["chest pain", "chest pressure", "chest tightness", "heart attack"],
   "chest pain or pressure - this could be a heart attack"),
  (["difficulty breathing", "can\x27t breathe", "cannot breathe", "shortness of breath", "severe breathing"],
   "difficulty breathing - this requires immediate attention"),
  (["stroke", "face drooping", "arm weakness", "slurred speech", "severe headache", "worst headache"],
   "stroke symptoms - time is critical"),
  (["loss of consciousness", "unconscious", "passed out", "unresponsive"],
   "loss of consciousness - call 911 immediately"),
  (["severe confusion", "altered mental state"],
   "altered mental state - needs immediate evaluation"),
  (["severe bleeding", "heavy bleeding", "bleeding won\x27t stop", "severe trauma", "severe injury"],
   "severe bleeding or trauma - needs emergency care"),
  (["severe head injury", "head trauma"],
   "head injury - needs immediate evaluation"),
  (["severe allergic reaction", "anaphylaxis", "throat swelling", "tongue swelling"],
   "severe allergic reaction - use EpiPen if available and call 911"),
  (["suicidal", "want to die", "kill myself", "suicide"],
   "mental health crisis - call 988 Suicide & Crisis Lifeline or 911"),
  (["severe abdominal pain", "severe stomach pain"],
   "severe abdominal pain - could indicate serious condition"),
  (["coughing up blood", "vomiting blood", "blood in stool"],
   "bleeding from body - needs emergency evaluation"),
  (["seizure", "convulsion"],
   "seizure - needs immediate medical attention")]

/-- The scan loop of `detect_er_red_flags`: first group with a contained
keyword wins (keyword-by-keyword early return collapses to `any` because
every hit returns the same group's warning). -/
def scan_red_flags (reason_lower : String) : List (List String × String) → Option String
  | [] => none
  | (keywords, warning) :: rest =>
    if keywords.any (fun kw => strContains reason_lower kw) then some warning
    else scan_red_flags reason_lower rest

/-- The source `detect_er_red_flags(reason)`. -/
def detect_er_red_flags (reason : String) : Bool × Option String :=
  if pyStrip reason = "" then (false, none)
  else
    let reason_lower := pyStrip (pyLower reason)
    match scan_red_flags reason_lower red_flags with
    | some warning => (true, some warning)
    | none => (false, none)

/-! ## Service-requirement detection (`shared/service_detection.py`) -/

def xray_keywords : List String :=
  ["fracture", "broken bone", "sprain", "twisted ankle", "chest x-ray", "x-ray"]

def lab_keywords : List String :=
  ["blood test", "lab work", "test results", "cholesterol", "std test", "sti test"]

def procedure_keywords : List String :=
  ["stitches", "sutures", "deep cut", "wound", "laceration"]

/-- The source `detect_service_requirements(reason)`. -/
def detect_service_requirements (reason : String) : List String :=
  if pyStrip reason = "" then []
  else
    let reason_lower := pyStrip (pyLower reason)
    (if xray_keywords.any (fun kw => strContains reason_lower kw) then ["x-ray"] else []) ++
    (if lab_keywords.any (fun kw => strContains reason_lower kw) then ["lab"] else []) ++
    (if procedure_keywords.any (fun kw => strContains reason_lower kw) then ["procedure"] else [])

/-! ## Hours evaluation (`shared/locations.py`, `is_location_open_now`) -/

/-- Lexicographic `datetime.time` comparison (hour, minute, second). -/
def timeLE (a b : TimeOfDay) : Bool :=
  decide (a.hour < b.hour ∨ (a.hour = b.hour ∧
    (a.minute < b.minute ∨ (a.minute = b.minute ∧ a.second ≤ b.second))))

/-- Strict lexicographic `datetime` comparison on same-date instants. -/
def timeLT (a b : TimeOfDay) : Bool :=
  decide (a.hour < b.hour ∨ (a.hour = b.hour ∧
    (a.minute < b.minute ∨ (a.minute = b.minute ∧ a.second < b.second))))

/-- The inner `parse_time` of `is_location_open_now`: strip/lower, delete
`"am"`/`"pm"`, split on `":"`, read hour and optional minute with `int`,
then apply the 12-hour → 24-hour adjustment.  `none` models the raised
`ValueError`; the values are integers, as in the source, where a
negative or oversized hour only fails later at `datetime.replace`. -/
def parse_time (timeStr : String) : Option (Int × Int) :=
  let ts := pyLower (pyStrip timeStr)
  let cleaned := pyStrip (removeSub "pm" (removeSub "am" ts))
  match splitOnChar ':' cleaned.data with
  | [] => none
  | hStr :: rest =>
    match pyInt? ⟨hStr⟩ with
    | none => none
    | some hour =>
      let minute? := match rest with
                     | [] => some (0 : Int)
                     | mStr :: _ => pyInt? ⟨mStr⟩
      match minute? with
      | none => none
      | some minute =>
        let hour' := if strContains ts "pm" ∧ hour ≠ 12 then hour + 12
                     else if strContains ts "am" ∧ hour = 12 then 0
                     else hour
        some (hour', minute)

/-- The fall-through tail of `is_location_open_now`: not currently open;
report "opens soon" when the start instant is at most 60 minutes ahead
(`(start - now).total_seconds() / 60 <= 60`), else closed. -/
def closed_status (start_time : String) (startT now : TimeOfDay) : Bool × String :=
  if timeLT now startT then
    if (startT.hour * 3600 + startT.minute * 60 : Int) -
       (now.hour * 3600 + now.minute * 60 + now.second) ≤ 3600 then
      (false, "Opens at " ++ start_time)
    else (false, "Closed - Opens " ++ start_time)
  else (false, "Closed - Opens " ++ start_time)

/-- The source `is_location_open_now(location)` with the wall clock passed explicitly.
`datetime.replace` raises on a negative or out-of-range hour/minute, so
parsed values outside 0–23 / 0–59 degrade to the caught-exception
fallback. -/
def is_location_open_now (loc : Location) (now : TimeOfDay) : Bool × String :=
  match loc.hours_today with
  | none => (false, "Hours unavailable")
  | some ht =>
    if ht.is24hours then (true, "Open 24 hours")
    else
      match ht.start, ht.endTime with
      | some start_time, some end_time =>
        if start_time = "" ∨ end_time = "" then (false, "Hours unavailable")
        else
          match parse_time start_time, parse_time end_time with
          | some (sh, sm), some (eh, em) =>
            if 0 ≤ sh ∧ sh ≤ 23 ∧ 0 ≤ sm ∧ sm ≤ 59 ∧
               0 ≤ eh ∧ eh ≤ 23 ∧ 0 ≤ em ∧ em ≤ 59 then
              let startT : TimeOfDay := ⟨sh.toNat, sm.toNat, 0⟩
              let endT : TimeOfDay := ⟨eh.toNat, em.toNat, 0⟩
              if timeLT endT startT then
                if timeLE startT now || timeLE now endT then (true, "Open now")
                else closed_status start_time startT now
              else
                if timeLE startT now && timeLE now endT then (true, "Open now")
                else closed_status start_time startT now
            else (false, "Hours unavailable")
          | _, _ => (false, "Hours unavailable")
      | _, _ => (false, "Hours unavailable")

/-! ## Service matching (`shared/locations.py`) -/

/-- The source `location_has_service(location, service_type)`: scans only service
categories named "other" for literal capability markers. -/
def location_has_service (loc : Location) (service_type : String) : Bool :=
  let stl := pyLower service_type
  loc.services.any (fun cat =>
    if pyLower cat.name = "other" then
      cat.values.any (fun item =>
        let item_val := pyLower item.val
        (stl = "x-ray" && strContains item_val "x-ray") ||
        (stl = "lab" && (strContains item_val "lab" || strContains item_val "laboratory")) ||
        (stl = "procedure" && (strContains item_val "procedure" || strContains item_val "minor injuries")))
    else false)

/-- The fixed very-general-query list of `_keyword_location_match`. -/
def very_general_queries : List String :=
  ["urgent care", "urgent", "walk-in", "walk in", "same day", "same-day",
   "express care", "immediate care", "covid test", "covid-19 test",
   "coronavirus test", "flu shot", "physical exam", "vaccination"]

/-- The fixed synonym table of `_keyword_location_match`. -/
def synonym_map : List (String × List String) := [
  ("urgent", ["immediate", "acute", "emergency", "same-day", "walk-in", "same", "day", "access"]),
  ("emergency", ["urgent", "critical", "severe", "acute", "er", "life-threatening"]),
  ("primary", ["family", "general", "routine", "preventive", "wellness"]),
  ("lab", ["laboratory", "blood", "test", "diagnostic", "testing"]),
  ("imaging", ["x-ray", "ct", "mri", "scan", "radiology", "ultrasound"]),
  ("therapy", ["physical", "occupational", "rehab", "rehabilitation"]),
  ("mental", ["behavioral", "psychology", "psychiatry", "counseling"]),
  ("pediatric", ["children", "child", "kids", "infant", "adolescent"]),
  ("women", ["obstetric", "gynecology", "maternity", "pregnancy"]),
  ("senior", ["geriatric", "elderly", "aging"]),
  ("care", ["clinic", "facility", "location", "center", "same-day", "walk-in"]),
  ("covid", ["covid-19", "coronavirus", "covid19", "sars-cov-2", "pandemic"]),
  ("test", ["testing", "exam", "examination", "screening", "check"]),
  ("vaccination", ["vaccine", "shot", "immunization", "vaccinations"]),
  ("flu", ["influenza", "flu-like", "seasonal"])]

/-- The lenient general healthcare terms of the fallback rule. -/
def general_terms : List String :=
  ["care", "help", "medical", "health", "doctor", "clinic", "hospital"]

/-- Emergency keywords excluded by the incomplete-data fallback. -/
def fallback_emergency_keywords : List String :=
  ["chest pain", "heart attack", "stroke", "unconscious", "911"]

/-- Expand the reason's word set with the synonym table. -/
def expand_reason_words (reason_words : List String) : List String :=
  reason_words ++ reason_words.flatMap (fun w =>
    match synonym_map.find? (fun p => p.1 = w) with
    | some p => p.2
    | none => [])

/-- The per-service-value scan of `_keyword_location_match`: word overlap
(with synonyms), mutual substring, or 4-character word-prefix overlap.
Every early `return` in the source loop carries the same value
`(True, reason)`, so the loop is an `any`. -/
def scan_services (expanded_reason_words : List String) (reason_lower : String)
    (cats : List ServiceCategory) : Bool :=
  cats.any (fun cat => cat.values.any (fun item =>
    let service_val := pyLower item.val
    let service_words := pyWords service_val
    (expanded_reason_words.any (fun w => service_words.contains w)) ||
    (strContains service_val reason_lower || strContains reason_lower service_val) ||
    (expanded_reason_words.any (fun rw =>
      rw.data.length ≥ 4 && service_words.any (fun sw =>
        sw.data.length ≥ 4 &&
        (listPrefixOf (sw.data.take 4) rw.data || listPrefixOf (rw.data.take 4) sw.data))))))

/-- The source `_keyword_location_match(location, reason)`. -/
def keyword_location_match (loc : Location) (reason : String) : Bool × Option String :=
  if pyStrip reason = "" then (true, none)
  else
    let reason_lower := pyStrip (pyLower reason)
    if very_general_queries.contains reason_lower then (true, some reason)
    else
      let reason_words := pyWords reason_lower
      let expanded := expand_reason_words reason_words
      if scan_services expanded reason_lower loc.services then (true, some reason)
      else if general_terms.any (fun t => strContains reason_lower t) then (true, some reason)
      else if (loc.is_urgent_care || loc.is_express_care) &&
              !(loc.services.any (fun cat => !cat.values.isEmpty)) &&
              !(fallback_emergency_keywords.any (fun kw => strContains reason_lower kw)) then
        (true, some "urgent/express care (incomplete service data)")
      else (false, none)

/-- The source `location_matches_reason(location, reason)`: semantic matching is
disabled by default (`USE_SEMANTIC_MATCHING` unset), so this is the
keyword matcher. -/
def location_matches_reason (loc : Location) (reason : String) : Bool × Option String :=
  keyword_location_match loc reason

/-- The source `location_offers_services(location, required_services)`: the loop
returns `False` on the first non-matching service, `True` otherwise. -/
def location_offers_services (loc : Location) (required_services : List String) : Bool :=
  required_services.all (fun s => (location_matches_reason loc s).1)

/-! ## Geocoding (`shared/geocoding.py`) -/

/-- The hardcoded `CITY_COORDINATES` table. -/
def CITY_COORDINATES : List (String × Coordinates) := [
  ("everett", ⟨47.9790, -122.2021⟩), ("seattle", ⟨47.6062, -122.3321⟩),
  ("tacoma", ⟨47.2529, -122.4443⟩), ("spokane", ⟨47.6588, -117.4260⟩),
  ("bellingham", ⟨48.7519, -122.4787⟩), ("olympia", ⟨47.0379, -122.9007⟩),
  ("vancouver", ⟨45.6387, -122.6615⟩), ("kennewick", ⟨46.2112, -119.1372⟩),
  ("yakima", ⟨46.6021, -120.5059⟩), ("lacey", ⟨47.0343, -122.8232⟩),
  ("portland", ⟨45.5152, -122.6784⟩), ("salem", ⟨44.9429, -123.0351⟩),
  ("eugene", ⟨44.0521, -123.0868⟩), ("medford", ⟨42.3265, -122.8756⟩),
  ("bend", ⟨44.0582, -121.3153⟩), ("corvallis", ⟨44.5646, -123.2620⟩),
  ("tigard", ⟨45.4312, -122.7714⟩), ("beaverton", ⟨45.4871, -122.8037⟩),
  ("lake oswego", ⟨45.4207, -122.6706⟩), ("los angeles", ⟨34.0522, -118.2437⟩),
  ("torrance", ⟨33.8358, -118.3406⟩), ("carson", ⟨33.8317, -118.2820⟩),
  ("santa rosa", ⟨38.4404, -122.7141⟩), ("petaluma", ⟨38.2324, -122.6367⟩)]

/-- First-match key lookup (Python `dict` keys are unique, so
first-match equals dict lookup). -/
def lookupTable (tbl : List (String × Coordinates)) (k : String) : Option Coordinates :=
  match tbl with
  | [] => none
  | (k', v) :: rest => if k' = k then some v else lookupTable rest k

/-- Truthiness of `coords and coords.get("lat") and coords.get("lng")`:
the pair must be present and both components non-zero (`0.0` is falsy). -/
def coords_truthy : Option Coordinates → Bool
  | none => false
  | some c => decide (c.lat ≠ 0) && decide (c.lng ≠ 0)

/-- The Providence address-substring fallback scan of `zip_to_coords`:
first facility whose lowercased address contains the normalized input or
the search term, provided the facility's coordinate pair is truthy;
a textual match with a falsy coordinate pair continues the scan. -/
def address_search (normalized search_term : String) : List Location → Option Coordinates
  | [] => none
  | loc :: rest =>
    let address := pyLower (loc.address_plain.getD "")
    if (strContains address normalized || strContains address search_term) &&
        coords_truthy loc.coordinates then
      some (loc.coordinates.getD ⟨0, 0⟩)
    else address_search normalized search_term rest

/-- The source's `location_input.split('-')[0][:5]` on the stripped input. -/
def clean_zip_of (input : String) : String :=
  ⟨((splitOnChar '-' (pyStrip input).data).headD []).take 5⟩

/-- The source `zip_to_coords(location_input)` with the ZIP table and facility
catalog passed explicitly (they are process-lifetime caches in the
source).  Strategies in order: ZIP lookup, hardcoded city table,
facility address substring search. -/
def zip_to_coords (zipTable : List (String × Coordinates)) (catalog : List Location)
    (location_input : String) : Option Coordinates :=
  let input := pyStrip location_input
  let clean_zip : String := clean_zip_of location_input
  let zipHit : Option Coordinates :=
    if clean_zip.data.all Char.isDigit ∧ clean_zip.data.length = 5 then
      lookupTable zipTable clean_zip
    else none
  match zipHit with
  | some coords => some coords
  | none =>
    let normalized := pyStrip (removeSub " ca" (removeSub " or" (removeSub " wa"
      (removeSub "." (removeSub "," (pyLower input))))))
    match lookupTable CITY_COORDINATES normalized with
    | some coords => some coords
    | none =>
      let search_term := removeSub "." (removeSub "," (pyLower input))
      address_search normalized search_term catalog

/-! ## Triage pipeline (`main.py`, care-locations branch of
`_call_tool_request`) -/

/-- Python `round(x, 1)` on the computed distance.  `Rat.round` rounds
half away from the nearest even unlike CPython's banker's rounding; no
claim distinguishes the two on half-way values. -/
def round1 (q : ℚ) : ℚ := (round (q * 10) : ℤ) / 10

/-- The per-facility filter of the catalog loop (both branches):
explicit service filters take priority, else keyword matching against
the reason, then the inferred service requirements; returns the pass
verdict and the match description. -/
def passes_service_filter (filter_services service_requirements : List String)
    (reason : String) (loc : Location) : Bool × Option String :=
  let step1 : Bool × Option String :=
    if filter_services ≠ [] then
      if location_offers_services loc filter_services then
        (true, some ("Offers: " ++ String.intercalate ", " filter_services))
      else (false, none)
    else
      let m := location_matches_reason loc reason
      if reason ≠ "" ∧ pyStrip reason ≠ "" ∧ m.1 = false then (false, none)
      else (true, m.2)
  if step1.1 = false then (false, none)
  else if service_requirements ≠ [] ∧
          ¬ (service_requirements.all (fun r => location_has_service loc r)) then
    (false, none)
  else step1

/-- The projection built in the distance-sorting branch. -/
def mk_processed_with_coords (loc : Location) (c : Coordinates) (d : ℚ)
    (now : TimeOfDay) (md : Option String) : ProcessedLocation :=
  { id := loc.id, name := loc.name, coordinates := some c,
    distance := some (round1 d),
    match_reason := md,
    is_open_now := (is_location_open_now loc now).1,
    open_status := (is_location_open_now loc now).2 }

/-- The projection built in the no-coordinates branch (`distance=None`). -/
def mk_processed_no_coords (loc : Location) (now : TimeOfDay)
    (md : Option String) : ProcessedLocation :=
  { id := loc.id, name := loc.name, coordinates := loc.coordinates,
    distance := none,
    match_reason := md,
    is_open_now := (is_location_open_now loc now).1,
    open_status := (is_location_open_now loc now).2 }

/-- The catalog loop of the distance branch: id-level duplicate
suppression, per-facility filter, then keep only facilities whose
coordinate pair is truthy (present, non-zero lat and lng), attaching
the rounded distance. -/
def process_with_coords (filter_services service_requirements : List String)
    (reason : String) (now : TimeOfDay) (dist : Coordinates → Coordinates → ℚ)
    (uc : Coordinates) :
    List Location → List (Option String) → List ProcessedLocation
  | [], _ => []
  | loc :: rest, seen_ids =>
    if loc.id ∈ seen_ids then
      process_with_coords filter_services service_requirements reason now dist uc rest seen_ids
    else
      let seen' := loc.id :: seen_ids
      let p := passes_service_filter filter_services service_requirements reason loc
      if p.1 then
        if coords_truthy loc.coordinates then
          mk_processed_with_coords loc (loc.coordinates.getD ⟨0, 0⟩)
              (dist uc (loc.coordinates.getD ⟨0, 0⟩)) now p.2 ::
            process_with_coords filter_services service_requirements reason now dist uc rest seen'
        else process_with_coords filter_services service_requirements reason now dist uc rest seen'
      else process_with_coords filter_services service_requirements reason now dist uc rest seen'

/-- Sort key: the stored (rounded) distance; in the distance branch every
element carries `some` distance. -/
def dist_key (p : ProcessedLocation) : ℚ := p.distance.getD 0

/-- Stable insertion of one element into a distance-sorted list. -/
def ordered_insert (x : ProcessedLocation) : List ProcessedLocation → List ProcessedLocation
  | [] => [x]
  | y :: ys => if dist_key x ≤ dist_key y then x :: y :: ys else y :: ordered_insert x ys

/-- The call `processed_locations.sort(key=lambda x: x["distance"])`: CPython's
sort is a stable sort by the key, and a stable sort's output is uniquely
determined by sortedness plus stability, so this structural stable
insertion sort computes the identical list. -/
def sort_by_distance : List ProcessedLocation → List ProcessedLocation
  | [] => []
  | x :: xs => ordered_insert x (sort_by_distance xs)

/-- The second dedup pass of the distance branch: keep the first
occurrence of each display name. -/
def dedup_by_name : List ProcessedLocation → List (Option String) → List ProcessedLocation
  | [], _ => []
  | l :: ls, seen_names =>
    if l.name ∈ seen_names then dedup_by_name ls seen_names
    else l :: dedup_by_name ls (l.name :: seen_names)

/-- The catalog loop of the no-coordinates branch: no duplicate
suppression, same per-facility filter, `distance=None`, and the loop
breaks as soon as 7 results have been accumulated. -/
def process_no_coords (filter_services service_requirements : List String)
    (reason : String) (now : TimeOfDay) :
    List Location → List ProcessedLocation → List ProcessedLocation
  | [], acc => acc
  | loc :: rest, acc =>
    let p := passes_service_filter filter_services service_requirements reason loc
    if p.1 then
      let acc' := acc ++ [mk_processed_no_coords loc now p.2]
      if acc'.length ≥ 7 then acc'
      else process_no_coords filter_services service_requirements reason now rest acc'
    else process_no_coords filter_services service_requirements reason now rest acc

/-- The pipeline `runTriage`: the care-locations branch of `_call_tool_request`,
from red-flag detection to the `structured_content` payload, with the
cached catalog/ZIP table, the wall clock, and the haversine distance
function passed explicitly. -/
def runTriage (payload : CareLocationInput) (all_locations : List Location)
    (zipTable : List (String × Coordinates)) (now : TimeOfDay)
    (dist : Coordinates → Coordinates → ℚ) : TriageResult :=
  let er := detect_er_red_flags payload.reason
  if er.1 then
    { is_emergency := true, emergency_warning := er.2, user_coords := none,
      locations := [], service_requirements := [] }
  else
    let service_requirements := detect_service_requirements payload.reason
    let user_coords : Option Coordinates :=
      if payload.location ≠ "" ∧ pyStrip payload.location ≠ "" then
        zip_to_coords zipTable all_locations payload.location
      else none
    let locations :=
      match user_coords with
      | some uc =>
        if all_locations = [] then
          -- `if user_coords and all_locations:` sends an empty catalog to
          -- the no-coordinates loop, which immediately yields [].
          process_no_coords payload.filter_services service_requirements payload.reason now
            all_locations []
        else
          (dedup_by_name
            (sort_by_distance
              (process_with_coords payload.filter_services service_requirements
                payload.reason now dist uc all_locations [])) []).take 7
      | none =>
        process_no_coords payload.filter_services service_requirements payload.reason now
          all_locations []
    { is_emergency := false, emergency_warning := none, user_coords := user_coords,
      locations := locations, service_requirements := service_requirements }

/-! ## Helper lemmas about the pipeline -/

theorem scan_red_flags_hit (rl : String) :
    ∀ gs : List (List String × String),
      (∃ g ∈ gs, ∃ kw ∈ g.1, strContains rl kw = true) →
      ∃ g ∈ gs, (∃ kw ∈ g.1, strContains rl kw = true) ∧
        scan_red_flags rl gs = some g.2
  | [], h => by simp at h
  | (kws, w) :: rest, h => by
    by_cases hany : kws.any (fun kw => strContains rl kw) = true
    · refine ⟨(kws, w), List.mem_cons_self _ _, ?_, ?_⟩
      · simpa [List.any_eq_true] using hany
      · simp [scan_red_flags, hany]
    · have hrest : ∃ g ∈ rest, ∃ kw ∈ g.1, strContains rl kw = true := by
        rcases h with ⟨g, hg, kw, hkw, hc⟩
        rcases List.mem_cons.mp hg with rfl | hg'
        · exact absurd (List.any_eq_true.mpr ⟨kw, hkw, hc⟩) hany
        · exact ⟨g, hg', kw, hkw, hc⟩
      rcases scan_red_flags_hit rl rest hrest with ⟨g, hg, hmatch, hscan⟩
      exact ⟨g, List.mem_cons_of_mem _ hg, hmatch, by simp [scan_red_flags, hany, hscan]⟩

theorem red_flags_keywords_nonempty :
    red_flags.all (fun g => g.1.all (fun kw => kw ≠ "")) = true := by decide

theorem detect_er_red_flags_hit (reason : String)
    (h : ∃ g ∈ red_flags, ∃ kw ∈ g.1,
        strContains (pyStrip (pyLower reason)) kw = true) :
    ∃ g ∈ red_flags, (∃ kw ∈ g.1, strContains (pyStrip (pyLower reason)) kw = true) ∧
      detect_er_red_flags reason = (true, some g.2) := by
  by_cases hempty : pyStrip reason = ""
  · exfalso
    have hlow : pyStrip (pyLower reason) = "" :=
      pyStrip_pyLower_of_pyStrip_eq_empty reason hempty
    rcases h with ⟨g, hg, kw, hkw, hc⟩
    rw [hlow] at hc
    have hkwe : kw = "" := strContains_empty_hay hc
    have := List.all_eq_true.mp red_flags_keywords_nonempty g hg
    have := List.all_eq_true.mp this kw hkw
    simp [hkwe] at this
  · rcases scan_red_flags_hit (pyStrip (pyLower reason)) red_flags h with
      ⟨g, hg, hmatch, hscan⟩
    exact ⟨g, hg, hmatch, by simp [detect_er_red_flags, hempty, hscan]⟩

/-! ## Claims -/

/-- Claim C1. For every reason string in which some configured red-flag
keyword occurs as a substring of the lowercased, trimmed reason,
`runTriage` returns `is_emergency = true`, the matching group's warning
text, and an empty location list, for every location string and every
facility catalog; the result carries no resolved coordinates
(`user_coords = none`), independent of the location and catalog. -/
theorem c1_red_flag_emergency_terminal (payload : CareLocationInput)
    (catalog : List Location) (zipTable : List (String × Coordinates))
    (now : TimeOfDay) (dist : Coordinates → Coordinates → ℚ)
    (h : ∃ g ∈ red_flags, ∃ kw ∈ g.1,
        strContains (pyStrip (pyLower payload.reason)) kw = true) :
    (runTriage payload catalog zipTable now dist).is_emergency = true ∧
    (runTriage payload catalog zipTable now dist).locations = [] ∧
    (runTriage payload catalog zipTable now dist).user_coords = none ∧
    ∃ g ∈ red_flags, (∃ kw ∈ g.1, strContains (pyStrip (pyLower payload.reason)) kw = true) ∧
      (runTriage payload catalog zipTable now dist).emergency_warning = some g.2 := by
  rcases detect_er_red_flags_hit payload.reason h with ⟨g, hg, hmatch, hdet⟩
  refine ⟨?_, ?_, ?_, g, hg, hmatch, ?_⟩ <;> simp [runTriage, hdet]

/-- Witness for C1: `"I have chest pain"` triggers the cardiac red-flag
group regardless of catalog and location. -/
theorem c1_red_flag_emergency_terminal_witness :
    (runTriage ⟨"I have chest pain", "97202", []⟩ [] [] ⟨12, 0, 0⟩
      (fun _ _ => 0)).is_emergency = true ∧
    (runTriage ⟨"I have chest pain", "97202", []⟩ [] [] ⟨12, 0, 0⟩
      (fun _ _ => 0)).locations = [] ∧
    (runTriage ⟨"I have chest pain", "97202", []⟩ [] [] ⟨12, 0, 0⟩
      (fun _ _ => 0)).user_coords = none ∧
    ∃ g ∈ red_flags,
      (∃ kw ∈ g.1, strContains (pyStrip (pyLower "I have chest pain")) kw = true) ∧
      (runTriage ⟨"I have chest pain", "97202", []⟩ [] [] ⟨12, 0, 0⟩
        (fun _ _ => 0)).emergency_warning = some g.2 :=
  c1_red_flag_emergency_terminal ⟨"I have chest pain", "97202", []⟩ [] [] ⟨12, 0, 0⟩
    (fun _ _ => 0) (by decide)

theorem process_no_coords_length (fs sr : List String) (reason : String) (now : TimeOfDay) :
    ∀ (locs : List Location) (acc : List ProcessedLocation),
      acc.length ≤ 6 →
      (process_no_coords fs sr reason now locs acc).length ≤ 7
  | [], acc, hacc => by
    simpa [process_no_coords] using Nat.le_trans hacc (by omega)
  | loc :: rest, acc, hacc => by
    unfold process_no_coords
    by_cases hp : (passes_service_filter fs sr reason loc).1 = true
    · simp only [hp, if_true]
      by_cases hlen : (acc ++ [mk_processed_no_coords loc now
          (passes_service_filter fs sr reason loc).2]).length ≥ 7
      · simp only [hlen, if_true]
        simp only [List.length_append, List.length_singleton]
        omega
      · simp only [hlen, if_false]
        exact process_no_coords_length fs sr reason now rest _ (by
          simp only [List.length_append, List.length_singleton] at hlen ⊢
          omega)
    · simp only [Bool.not_eq_true] at hp
      simp only [hp, Bool.false_eq_true, if_false]
      exact process_no_coords_length fs sr reason now rest acc hacc

/-- Claim C3. For every request and every facility catalog (and any clock,
ZIP table and distance function), the location list of the returned
`TriageResult` has length at most 7: the distance branch truncates after
sort and dedup, the no-location branch stops accumulating at 7, and the
emergency branch returns the empty list. -/
theorem c3_result_length_at_most_seven (payload : CareLocationInput)
    (catalog : List Location) (zipTable : List (String × Coordinates))
    (now : TimeOfDay) (dist : Coordinates → Coordinates → ℚ) :
    (runTriage payload catalog zipTable now dist).locations.length ≤ 7 := by
  unfold runTriage
  by_cases her : (detect_er_red_flags payload.reason).1 = true
  · simp [her]
  · simp only [Bool.not_eq_true] at her
    simp only [her, Bool.false_eq_true, if_false]
    cases huc : (if payload.location ≠ "" ∧ pyStrip payload.location ≠ "" then
        zip_to_coords zipTable catalog payload.location else none) with
    | none =>
      simp only [huc]
      exact process_no_coords_length _ _ _ _ _ _ (by simp)
    | some uc =>
      simp only [huc]
      by_cases hcat : catalog = []
      · simp only [hcat, if_true]
        exact process_no_coords_length _ _ _ _ _ _ (by simp)
      · simp only [hcat, if_false]
        exact le_trans (List.length_take_le _ _) (le_refl 7)

theorem keyword_match_empty_reason (loc : Location) (reason : String)
    (h : pyStrip reason = "") :
    keyword_location_match loc reason = (true, none) := by
  simp [keyword_location_match, h]

theorem passes_filter_empty_reason (loc : Location) (sr : List String) (reason : String)
    (h : pyStrip reason = "") (hsr : sr = []) :
    passes_service_filter [] sr reason loc = (true, none) := by
  have hm : location_matches_reason loc reason = (true, none) :=
    keyword_match_empty_reason loc reason h
  simp [passes_service_filter, hm, h, hsr]

theorem detect_service_requirements_empty (reason : String) (h : pyStrip reason = "") :
    detect_service_requirements reason = [] := by
  simp [detect_service_requirements, h]

theorem process_no_coords_all_pass (fs sr : List String) (reason : String) (now : TimeOfDay)
    (hpass : ∀ loc, passes_service_filter fs sr reason loc = (true, none)) :
    ∀ (locs : List Location) (acc : List ProcessedLocation), acc.length ≤ 6 →
      process_no_coords fs sr reason now locs acc =
        acc ++ (locs.take (7 - acc.length)).map (fun loc => mk_processed_no_coords loc now none)
  | [], acc, hacc => by simp [process_no_coords]
  | loc :: rest, acc, hacc => by
    unfold process_no_coords
    rw [hpass loc]
    simp only [if_true]
    by_cases hlen : (acc ++ [mk_processed_no_coords loc now none]).length ≥ 7
    · simp only [hlen, if_true]
      have h6 : acc.length = 6 := by
        simp only [List.length_append, List.length_singleton] at hlen
        omega
      have h71 : 7 - acc.length = 1 := by omega
      rw [h71]
      simp [List.take_succ_cons]
    · simp only [hlen, if_false]
      rw [process_no_coords_all_pass fs sr reason now hpass rest _ (by
        simp only [List.length_append, List.length_singleton] at hlen ⊢
        omega)]
      have hsucc : 7 - acc.length = (7 - (acc ++ [mk_processed_no_coords loc now none]).length) + 1 := by
        simp only [List.length_append, List.length_singleton] at hlen ⊢
        omega
      rw [hsucc, List.take_succ_cons, List.map_cons]
      simp [List.append_assoc]

/-- Claim C5. For every request with empty (or whitespace-only) reason and
no explicit services: the keyword matcher matches every facility with no
description, the per-facility filter passes every facility, and the
no-location result of `runTriage` is exactly the first seven catalog
entries annotated with open status (only annotation and truncation
affect the result). -/
theorem c5_empty_reason_filter_noop (reason : String) (h : pyStrip reason = "") :
    (∀ loc, location_matches_reason loc reason = (true, none)) ∧
    (∀ loc, passes_service_filter [] (detect_service_requirements reason) reason loc
      = (true, none)) ∧
    ∀ (catalog : List Location) (zipTable : List (String × Coordinates))
      (now : TimeOfDay) (dist : Coordinates → Coordinates → ℚ),
      (runTriage ⟨reason, "", []⟩ catalog zipTable now dist).locations =
        (catalog.take 7).map (fun loc => mk_processed_no_coords loc now none) := by
  refine ⟨fun loc => keyword_match_empty_reason loc reason h,
    fun loc => passes_filter_empty_reason loc _ reason h
      (detect_service_requirements_empty reason h), ?_⟩
  intro catalog zipTable now dist
  have hdet : detect_er_red_flags reason = (false, none) := by
    simp [detect_er_red_flags, h]
  have hall := process_no_coords_all_pass [] (detect_service_requirements reason) reason now
    (fun loc => passes_filter_empty_reason loc _ reason h
      (detect_service_requirements_empty reason h)) catalog [] (by simp)
  simp only [runTriage, hdet]
  simpa using hall

/-- Witness for C5 at the whitespace-only reason `" "` and a two-facility
catalog. -/
theorem c5_empty_reason_filter_noop_witness :
    (∀ loc, location_matches_reason loc " " = (true, none)) ∧
    (∀ loc, passes_service_filter [] (detect_service_requirements " ") " " loc
      = (true, none)) ∧
    ∀ (catalog : List Location) (zipTable : List (String × Coordinates))
      (now : TimeOfDay) (dist : Coordinates → Coordinates → ℚ),
      (runTriage ⟨" ", "", []⟩ catalog zipTable now dist).locations =
        (catalog.take 7).map (fun loc => mk_processed_no_coords loc now none) :=
  c5_empty_reason_filter_noop " " (by decide)

theorem ordered_insert_perm (x : ProcessedLocation) :
    ∀ l : List ProcessedLocation, (ordered_insert x l).Perm (x :: l)
  | [] => List.Perm.refl _
  | y :: ys => by
    unfold ordered_insert
    by_cases hle : dist_key x ≤ dist_key y
    · simp only [hle, if_true]
      exact List.Perm.refl _
    · simp only [hle, if_false]
      exact ((ordered_insert_perm x ys).cons y).trans (List.Perm.swap x y ys)

theorem sort_by_distance_perm :
    ∀ l : List ProcessedLocation, (sort_by_distance l).Perm l
  | [] => List.Perm.refl _
  | x :: xs =>
    (ordered_insert_perm x (sort_by_distance xs)).trans
      ((sort_by_distance_perm xs).cons x)

theorem ordered_insert_pairwise (x : ProcessedLocation) :
    ∀ l : List ProcessedLocation,
      l.Pairwise (fun a b => dist_key a ≤ dist_key b) →
      (ordered_insert x l).Pairwise (fun a b => dist_key a ≤ dist_key b)
  | [], _ => by simp [ordered_insert]
  | y :: ys, hl => by
    rcases List.pairwise_cons.mp hl with ⟨hy, hys⟩
    unfold ordered_insert
    by_cases hle : dist_key x ≤ dist_key y
    · simp only [hle, if_true]
      refine List.pairwise_cons.mpr ⟨?_, hl⟩
      intro z hz
      rcases List.mem_cons.mp hz with rfl | hz'
      · exact hle
      · exact le_trans hle (hy z hz')
    · simp only [hle, if_false]
      refine List.pairwise_cons.mpr ⟨?_, ordered_insert_pairwise x ys hys⟩
      intro z hz
      rcases List.mem_cons.mp ((ordered_insert_perm x ys).mem_iff.mp hz) with rfl | hz'
      · exact le_of_not_le hle
      · exact hy z hz'

theorem sort_by_distance_sorted :
    ∀ l : List ProcessedLocation,
      (sort_by_distance l).Pairwise (fun a b => dist_key a ≤ dist_key b)
  | [] => List.Pairwise.nil
  | x :: xs => ordered_insert_pairwise x (sort_by_distance xs) (sort_by_distance_sorted xs)

theorem dedup_by_name_sublist :
    ∀ (l : List ProcessedLocation) (seen : List (Option String)),
      (dedup_by_name l seen).Sublist l
  | [], _ => List.Sublist.refl _
  | x :: xs, seen => by
    unfold dedup_by_name
    by_cases hx : x.name ∈ seen
    · simp only [hx, if_true]
      exact (dedup_by_name_sublist xs seen).cons x
    · simp only [hx, if_false]
      exact (dedup_by_name_sublist xs (x.name :: seen)).cons₂ x

theorem dedup_by_name_pairwise :
    ∀ (l : List ProcessedLocation) (seen : List (Option String)),
      (dedup_by_name l seen).Pairwise (fun a b => a.name ≠ b.name) ∧
      ∀ x ∈ dedup_by_name l seen, x.name ∉ seen
  | [], _ => by simp [dedup_by_name]
  | x :: xs, seen => by
    unfold dedup_by_name
    by_cases hx : x.name ∈ seen
    · simp only [hx, if_true]
      exact dedup_by_name_pairwise xs seen
    · simp only [hx, if_false]
      rcases dedup_by_name_pairwise xs (x.name :: seen) with ⟨hpw, hseen⟩
      refine ⟨List.pairwise_cons.mpr ⟨?_, hpw⟩, ?_⟩
      · intro z hz hz'
        exact hseen z hz (by simp [hz'])
      · intro z hz
        rcases List.mem_cons.mp hz with rfl | hz'
        · exact hx
        · intro hmem
          exact hseen z hz' (List.mem_cons_of_mem _ hmem)

theorem process_with_coords_mem (fs sr : List String) (reason : String) (now : TimeOfDay)
    (dist : Coordinates → Coordinates → ℚ) (uc : Coordinates) :
    ∀ (locs : List Location) (seen : List (Option String)),
      ∀ x ∈ process_with_coords fs sr reason now dist uc locs seen,
        ∃ c, x.coordinates = some c ∧ c.lat ≠ 0 ∧ c.lng ≠ 0 ∧
          x.distance = some (round1 (dist uc c))
  | [], _, x, hx => by simp [process_with_coords] at hx
  | loc :: rest, seen, x, hx => by
    unfold process_with_coords at hx
    by_cases hid : loc.id ∈ seen
    · rw [if_pos hid] at hx
      exact process_with_coords_mem fs sr reason now dist uc rest seen x hx
    · rw [if_neg hid] at hx
      by_cases hp : (passes_service_filter fs sr reason loc).1 = true
      · simp only [hp, if_true] at hx
        by_cases htr : coords_truthy loc.coordinates = true
        · rw [if_pos htr] at hx
          rcases List.mem_cons.mp hx with rfl | hx'
          · rcases hco : loc.coordinates with _ | c
            · rw [hco] at htr; simp [coords_truthy] at htr
            · rw [hco] at htr
              simp only [coords_truthy, Bool.and_eq_true, decide_eq_true_eq] at htr
              exact ⟨c, by simp [mk_processed_with_coords, hco], htr.1, htr.2,
                by simp [mk_processed_with_coords, hco]⟩
          · exact process_with_coords_mem fs sr reason now dist uc rest _ x hx'
        · rw [if_neg htr] at hx
          exact process_with_coords_mem fs sr reason now dist uc rest _ x hx
      · simp only [Bool.not_eq_true] at hp
        simp only [hp, Bool.false_eq_true, if_false] at hx
        exact process_with_coords_mem fs sr reason now dist uc rest _ x hx

theorem process_with_coords_ids (fs sr : List String) (reason : String) (now : TimeOfDay)
    (dist : Coordinates → Coordinates → ℚ) (uc : Coordinates) :
    ∀ (locs : List Location) (seen : List (Option String)),
      (process_with_coords fs sr reason now dist uc locs seen).Pairwise
        (fun a b => a.id ≠ b.id) ∧
      ∀ x ∈ process_with_coords fs sr reason now dist uc locs seen, x.id ∉ seen
  | [], _ => by simp [process_with_coords]
  | loc :: rest, seen => by
    unfold process_with_coords
    by_cases hid : loc.id ∈ seen
    · rw [if_pos hid]
      exact process_with_coords_ids fs sr reason now dist uc rest seen
    · rw [if_neg hid]
      have hrec := process_with_coords_ids fs sr reason now dist uc rest (loc.id :: seen)
      have hskip : (∀ x ∈ process_with_coords fs sr reason now dist uc rest (loc.id :: seen),
          x.id ∉ seen) :=
        fun x hx hmem => hrec.2 x hx (List.mem_cons_of_mem _ hmem)
      by_cases hp : (passes_service_filter fs sr reason loc).1 = true
      · simp only [hp, if_true]
        by_cases htr : coords_truthy loc.coordinates = true
        · rw [if_pos htr]
          refine ⟨List.pairwise_cons.mpr ⟨?_, hrec.1⟩, ?_⟩
          · intro z hz heq
            apply hrec.2 z hz
            simp only [mk_processed_with_coords] at heq
            simp [← heq]
          · intro z hz
            rcases List.mem_cons.mp hz with rfl | hz'
            · exact hid
            · exact hskip z hz'
        · rw [if_neg htr]
          exact ⟨hrec.1, hskip⟩
      · simp only [Bool.not_eq_true] at hp
        simp only [hp, Bool.false_eq_true, if_false]
        exact ⟨hrec.1, hskip⟩

/-- The combined properties of the distance-branch final list. -/
theorem final_coords_list_props (fs sr : List String) (reason : String) (now : TimeOfDay)
    (dist : Coordinates → Coordinates → ℚ) (uc : Coordinates) (catalog : List Location) :
    ((dedup_by_name (sort_by_distance
        (process_with_coords fs sr reason now dist uc catalog [])) []).take 7).Pairwise
      (fun a b => dist_key a ≤ dist_key b) ∧
    ((dedup_by_name (sort_by_distance
        (process_with_coords fs sr reason now dist uc catalog [])) []).take 7).Pairwise
      (fun a b => a.name ≠ b.name) ∧
    ((dedup_by_name (sort_by_distance
        (process_with_coords fs sr reason now dist uc catalog [])) []).take 7).Pairwise
      (fun a b => a.id ≠ b.id) ∧
    ∀ x ∈ (dedup_by_name (sort_by_distance
        (process_with_coords fs sr reason now dist uc catalog [])) []).take 7,
      ∃ c, x.coordinates = some c ∧ c.lat ≠ 0 ∧ c.lng ≠ 0 ∧
        x.distance = some (round1 (dist uc c)) := by
  have hsub1 : List.Sublist
      ((dedup_by_name (sort_by_distance
        (process_with_coords fs sr reason now dist uc catalog [])) []).take 7)
      (dedup_by_name (sort_by_distance
        (process_with_coords fs sr reason now dist uc catalog [])) []) :=
    List.take_sublist _ _
  have hsub2 := dedup_by_name_sublist
    (sort_by_distance (process_with_coords fs sr reason now dist uc catalog [])) []
  have hsubfin := hsub1.trans hsub2
  have hperm := sort_by_distance_perm (process_with_coords fs sr reason now dist uc catalog [])
  refine ⟨(sort_by_distance_sorted _).sublist hsubfin, ?_, ?_, ?_⟩
  · exact ((dedup_by_name_pairwise _ _).1).sublist hsub1
  · have hids := (process_with_coords_ids fs sr reason now dist uc catalog []).1
    exact ((hperm.pairwise_iff (fun h => Ne.symm h)).mpr hids).sublist hsubfin
  · intro x hx
    exact process_with_coords_mem fs sr reason now dist uc catalog [] x
      (hperm.mem_iff.mp (hsubfin.subset hx))

/-- The distance branch is taken and produces the sorted/deduped/truncated
list when the reason is not an emergency, the location string is
non-blank and geocodes, and the catalog is non-empty. -/
theorem runTriage_coords_branch (payload : CareLocationInput) (catalog : List Location)
    (zipTable : List (String × Coordinates)) (now : TimeOfDay)
    (dist : Coordinates → Coordinates → ℚ) (uc : Coordinates)
    (her : (detect_er_red_flags payload.reason).1 = false)
    (hloc : pyStrip payload.location ≠ "")
    (hgeo : zip_to_coords zipTable catalog payload.location = some uc)
    (hcat : catalog ≠ []) :
    (runTriage payload catalog zipTable now dist).locations =
      (dedup_by_name (sort_by_distance (process_with_coords payload.filter_services
        (detect_service_requirements payload.reason) payload.reason now dist uc
        catalog [])) []).take 7 := by
  have hloc' : payload.location ≠ "" := fun he => hloc (by rw [he]; rfl)
  unfold runTriage
  simp only [her, Bool.false_eq_true, if_false]
  rw [if_pos ⟨hloc', hloc⟩, hgeo]
  simp only [hcat, if_false]

/-- Claim C4. For every request whose location resolves to coordinates, the
final result list is sorted ascending by the stored distance (if entry A
precedes entry B then `distance(A) ≤ distance(B)`), and every entry
carries a non-null distance computed by the distance function from the
resolved coordinates and the entry's own coordinates (`dist` stands for
the floating-point `round(haversine_distance(user, facility), 1)`
composition, abstracted because its transcendental float evaluation has
no exact rational embedding; the ordering and non-nullness hold for
every distance function). -/
theorem c4_distance_sorted_with_distances (payload : CareLocationInput)
    (catalog : List Location) (zipTable : List (String × Coordinates))
    (now : TimeOfDay) (dist : Coordinates → Coordinates → ℚ) (uc : Coordinates)
    (hloc : pyStrip payload.location ≠ "")
    (hgeo : zip_to_coords zipTable catalog payload.location = some uc) :
    (runTriage payload catalog zipTable now dist).locations.Pairwise
      (fun a b => ∀ da db, a.distance = some da → b.distance = some db → da ≤ db) ∧
    ∀ x ∈ (runTriage payload catalog zipTable now dist).locations,
      ∃ c, x.coordinates = some c ∧ x.distance = some (round1 (dist uc c)) := by
  by_cases her : (detect_er_red_flags payload.reason).1 = true
  · constructor
    · simp [runTriage, her]
    · intro x hx
      simp [runTriage, her] at hx
  · simp only [Bool.not_eq_true] at her
    by_cases hcat : catalog = []
    · have hempty : (runTriage payload catalog zipTable now dist).locations = [] := by
        subst hcat
        unfold runTriage
        simp only [her, Bool.false_eq_true, if_false]
        cases huc : (if payload.location ≠ "" ∧ pyStrip payload.location ≠ "" then
            zip_to_coords zipTable ([] : List Location) payload.location else none) <;>
          simp [huc, process_no_coords]
      rw [hempty]
      exact ⟨List.Pairwise.nil, by intro x hx; simp at hx⟩
    · rw [runTriage_coords_branch payload catalog zipTable now dist uc her hloc hgeo hcat]
      rcases final_coords_list_props payload.filter_services
        (detect_service_requirements payload.reason) payload.reason now dist uc catalog with
        ⟨hsorted, _, _, hmem⟩
      constructor
      · refine hsorted.imp ?_
        intro a b hab da db hda hdb
        simp only [dist_key, hda, hdb, Option.getD_some] at hab
        exact hab
      · intro x hx
        rcases hmem x hx with ⟨c, hc, _, _, hd⟩
        exact ⟨c, hc, hd⟩

/-- Witness for C4: two facilities at integral coordinates, ZIP `97202`
resolving through the supplied table. -/
theorem c4_distance_sorted_with_distances_witness :
    (runTriage ⟨"", "97202", []⟩
      [⟨some "1", some "A", some "addr a", some ⟨46, -122⟩, [], none, false, false⟩,
       ⟨some "2", some "B", some "addr b", some ⟨45, -122⟩, [], none, false, false⟩]
      [("97202", ⟨45, -122⟩)] ⟨12, 0, 0⟩ (fun _ c => c.lat)).locations.Pairwise
      (fun a b => ∀ da db, a.distance = some da → b.distance = some db → da ≤ db) ∧
    ∀ x ∈ (runTriage ⟨"", "97202", []⟩
      [⟨some "1", some "A", some "addr a", some ⟨46, -122⟩, [], none, false, false⟩,
       ⟨some "2", some "B", some "addr b", some ⟨45, -122⟩, [], none, false, false⟩]
      [("97202", ⟨45, -122⟩)] ⟨12, 0, 0⟩ (fun _ c => c.lat)).locations,
      ∃ c, x.coordinates = some c ∧ x.distance = some (round1 ((fun _ c => c.lat)
        (⟨45, -122⟩ : Coordinates) c)) :=
  c4_distance_sorted_with_distances ⟨"", "97202", []⟩
    [⟨some "1", some "A", some "addr a", some ⟨46, -122⟩, [], none, false, false⟩,
     ⟨some "2", some "B", some "addr b", some ⟨45, -122⟩, [], none, false, false⟩]
    [("97202", ⟨45, -122⟩)] ⟨12, 0, 0⟩ (fun _ c => c.lat) ⟨45, -122⟩
    (by decide) (by decide)

/-- A facility appearing twice in the catalog, for the C2 counterexample. -/
def dup_catalog_entry : Location :=
  ⟨some "7", some "Dup Clinic", some "1 Elm St", some ⟨45, -122⟩, [], none, false, false⟩

/-- Claim C2, counterexample. In the no-location branch the catalog loop has
neither id- nor name-level duplicate suppression: a catalog holding the
same facility twice yields a result whose two entries share both `name`
and `id`, refuting the claim for requests without a resolved location. -/
theorem c2_counterexample_no_location_duplicates :
    ¬ ((runTriage ⟨"", "", []⟩ [dup_catalog_entry, dup_catalog_entry] [] ⟨12, 0, 0⟩
        (fun _ _ => 0)).locations.Pairwise (fun a b => a.name ≠ b.name)) ∧
    ¬ ((runTriage ⟨"", "", []⟩ [dup_catalog_entry, dup_catalog_entry] [] ⟨12, 0, 0⟩
        (fun _ _ => 0)).locations.Pairwise (fun a b => a.id ≠ b.id)) := by
  constructor <;> decide

/-- Claim C2, amended. For every request whose location string is non-blank
and resolves to coordinates (the distance-sorted branch), no two entries
of the final result list share the same `name` and no two share the same
`id`; in the no-location branch the catalog loop performs no duplicate
suppression, so catalog-level duplicates are returned as-is there. -/
theorem c2_amended_dedup_distance_branch (payload : CareLocationInput)
    (catalog : List Location) (zipTable : List (String × Coordinates))
    (now : TimeOfDay) (dist : Coordinates → Coordinates → ℚ) (uc : Coordinates)
    (hloc : pyStrip payload.location ≠ "")
    (hgeo : zip_to_coords zipTable catalog payload.location = some uc) :
    (runTriage payload catalog zipTable now dist).locations.Pairwise
      (fun a b => a.name ≠ b.name) ∧
    (runTriage payload catalog zipTable now dist).locations.Pairwise
      (fun a b => a.id ≠ b.id) := by
  by_cases her : (detect_er_red_flags payload.reason).1 = true
  · constructor <;> simp [runTriage, her]
  · simp only [Bool.not_eq_true] at her
    by_cases hcat : catalog = []
    · have hempty : (runTriage payload catalog zipTable now dist).locations = [] := by
        subst hcat
        unfold runTriage
        simp only [her, Bool.false_eq_true, if_false]
        cases huc : (if payload.location ≠ "" ∧ pyStrip payload.location ≠ "" then
            zip_to_coords zipTable ([] : List Location) payload.location else none) <;>
          simp [huc, process_no_coords]
      rw [hempty]
      exact ⟨List.Pairwise.nil, List.Pairwise.nil⟩
    · rw [runTriage_coords_branch payload catalog zipTable now dist uc her hloc hgeo hcat]
      rcases final_coords_list_props payload.filter_services
        (detect_service_requirements payload.reason) payload.reason now dist uc catalog with
        ⟨_, hnames, hids, _⟩
      exact ⟨hnames, hids⟩

/-- Witness for amended C2: a catalog that repeats one facility record
and contains a second facility sharing its display name under a distinct
id; the resolved-location result keeps one entry per id and name. -/
theorem c2_amended_dedup_distance_branch_witness :
    (runTriage ⟨"", "98201", []⟩
      [⟨some "7", some "Dup Clinic", some "1 Elm St", some ⟨45, -122⟩, [], none, false, false⟩,
       ⟨some "7", some "Dup Clinic", some "1 Elm St", some ⟨45, -122⟩, [], none, false, false⟩,
       ⟨some "8", some "Dup Clinic", some "2 Oak St", some ⟨46, -122⟩, [], none, false, false⟩]
      [("98201", ⟨47, -122⟩)] ⟨12, 0, 0⟩ (fun _ c => c.lat)).locations.Pairwise
      (fun a b => a.name ≠ b.name) ∧
    (runTriage ⟨"", "98201", []⟩
      [⟨some "7", some "Dup Clinic", some "1 Elm St", some ⟨45, -122⟩, [], none, false, false⟩,
       ⟨some "7", some "Dup Clinic", some "1 Elm St", some ⟨45, -122⟩, [], none, false, false⟩,
       ⟨some "8", some "Dup Clinic", some "2 Oak St", some ⟨46, -122⟩, [], none, false, false⟩]
      [("98201", ⟨47, -122⟩)] ⟨12, 0, 0⟩ (fun _ c => c.lat)).locations.Pairwise
      (fun a b => a.id ≠ b.id) :=
  c2_amended_dedup_distance_branch ⟨"", "98201", []⟩
    [⟨some "7", some "Dup Clinic", some "1 Elm St", some ⟨45, -122⟩, [], none, false, false⟩,
     ⟨some "7", some "Dup Clinic", some "1 Elm St", some ⟨45, -122⟩, [], none, false, false⟩,
     ⟨some "8", some "Dup Clinic", some "2 Oak St", some ⟨46, -122⟩, [], none, false, false⟩]
    [("98201", ⟨47, -122⟩)] ⟨12, 0, 0⟩ (fun _ c => c.lat) ⟨47, -122⟩
    (by decide) (by decide)

/-- Claim C10. A facility whose coordinate pair is present but has latitude
0 or longitude 0 is treated as having no coordinates: every entry of a
distance-sorted `runTriage` result carries a coordinate pair with both
components non-zero (so such a facility is excluded there), and the
address-substring geocoding fallback skips such a facility and continues
its scan. -/
theorem c10_zero_coordinate_treated_as_missing :
    (∀ (payload : CareLocationInput) (catalog : List Location)
       (zipTable : List (String × Coordinates)) (now : TimeOfDay)
       (dist : Coordinates → Coordinates → ℚ) (uc : Coordinates),
       pyStrip payload.location ≠ "" →
       zip_to_coords zipTable catalog payload.location = some uc →
       ∀ x ∈ (runTriage payload catalog zipTable now dist).locations,
         ∃ c, x.coordinates = some c ∧ c.lat ≠ 0 ∧ c.lng ≠ 0) ∧
    (∀ (normalized search_term : String) (loc : Location) (rest : List Location)
       (c : Coordinates), loc.coordinates = some c → (c.lat = 0 ∨ c.lng = 0) →
       address_search normalized search_term (loc :: rest) =
         address_search normalized search_term rest) := by
  constructor
  · intro payload catalog zipTable now dist uc hloc hgeo x hx
    by_cases her : (detect_er_red_flags payload.reason).1 = true
    · simp [runTriage, her] at hx
    · simp only [Bool.not_eq_true] at her
      by_cases hcat : catalog = []
      · have hempty : (runTriage payload catalog zipTable now dist).locations = [] := by
          subst hcat
          unfold runTriage
          simp only [her, Bool.false_eq_true, if_false]
          cases huc : (if payload.location ≠ "" ∧ pyStrip payload.location ≠ "" then
              zip_to_coords zipTable ([] : List Location) payload.location else none) <;>
            simp [huc, process_no_coords]
        rw [hempty] at hx
        simp at hx
      · rw [runTriage_coords_branch payload catalog zipTable now dist uc her hloc hgeo hcat] at hx
        rcases final_coords_list_props payload.filter_services
          (detect_service_requirements payload.reason) payload.reason now dist uc catalog with
          ⟨_, _, _, hmem⟩
        rcases hmem x hx with ⟨c, hc, hlat, hlng, _⟩
        exact ⟨c, hc, hlat, hlng⟩
  · intro normalized search_term loc rest c hc hzero
    unfold address_search
    have htr : coords_truthy loc.coordinates = false := by
      rw [hc]
      rcases hzero with h0 | h0 <;> simp [coords_truthy, h0]
    rw [htr]
    simp only [Bool.and_false, Bool.false_eq_true, if_false]
    cases rest <;> rfl

/-- Witness for C10: ZIP-resolved request over a catalog holding one
zero-longitude facility and one valid facility (first conjunct), and a
zero-latitude facility whose address matches the search text
(second conjunct). -/
theorem c10_zero_coordinate_treated_as_missing_witness :
    (∀ x ∈ (runTriage ⟨"", "97202", []⟩
        [⟨some "1", some "ZeroLng", some "3 Ash St", some ⟨45, 0⟩, [], none, false, false⟩,
         ⟨some "2", some "Good", some "4 Fir St", some ⟨45, -122⟩, [], none, false, false⟩]
        [("97202", ⟨45, -122⟩)] ⟨12, 0, 0⟩ (fun _ _ => 0)).locations,
       ∃ c, x.coordinates = some c ∧ c.lat ≠ 0 ∧ c.lng ≠ 0) ∧
    address_search "elm" "elm"
        [⟨some "9", some "ZeroLat", some "9 Elm St", some ⟨0, -122⟩, [], none, false, false⟩] =
      address_search "elm" "elm" [] :=
  ⟨(c10_zero_coordinate_treated_as_missing.1) ⟨"", "97202", []⟩
      [⟨some "1", some "ZeroLng", some "3 Ash St", some ⟨45, 0⟩, [], none, false, false⟩,
       ⟨some "2", some "Good", some "4 Fir St", some ⟨45, -122⟩, [], none, false, false⟩]
      [("97202", ⟨45, -122⟩)] ⟨12, 0, 0⟩ (fun _ _ => 0) ⟨45, -122⟩ (by decide) (by decide),
   (c10_zero_coordinate_treated_as_missing.2) "elm" "elm"
      ⟨some "9", some "ZeroLat", some "9 Elm St", some ⟨0, -122⟩, [], none, false, false⟩
      [] ⟨0, -122⟩ rfl (Or.inl rfl)⟩

/-- Claim C6. For every input string, the geocoder first strips the input,
takes the segment before the first `-` truncated to 5 characters
(`split('-')[0][:5]`); if those are 5 digits and present in the ZIP
table, it returns that table entry immediately — for every facility
catalog, without consulting the city table or the address-substring
fallback. -/
theorem c6_zip_lookup_authoritative (zipTable : List (String × Coordinates))
    (catalog : List Location) (input : String) (c : Coordinates)
    (hdig : (clean_zip_of input).data.all Char.isDigit = true)
    (hlen : (clean_zip_of input).data.length = 5)
    (htbl : lookupTable zipTable (clean_zip_of input) = some c) :
    zip_to_coords zipTable catalog input = some c := by
  simp only [zip_to_coords]
  rw [if_pos ⟨hdig, hlen⟩, htbl]

/-- Witness for C6: the spec's example, `resolve("97202")` against a
table holding `{"97202": (45.48, -122.65)}`, with an arbitrary catalog
entry present to show it is ignored. -/
theorem c6_zip_lookup_authoritative_witness :
    zip_to_coords [("97202", ⟨45.48, -122.65⟩)]
      [⟨some "1", some "A", some "97202 Main St", some ⟨1, 1⟩, [], none, false, false⟩]
      "97202" = some ⟨45.48, -122.65⟩ :=
  c6_zip_lookup_authoritative [("97202", ⟨45.48, -122.65⟩)]
    [⟨some "1", some "A", some "97202 Main St", some ⟨1, 1⟩, [], none, false, false⟩]
    "97202" ⟨45.48, -122.65⟩ (by decide) (by decide) rfl

theorem closed_status_fst (start_time : String) (startT now : TimeOfDay) :
    (closed_status start_time startT now).1 = false := by
  unfold closed_status
  split
  · split <;> rfl
  · rfl

set_option maxHeartbeats 1600000 in
/-- Claim C7. For every facility whose parsed `hoursToday` window is
overnight (end instant earlier than start instant), `isOpenNow` reports
open exactly when the current time-of-day is ≥ start or ≤ end; for a
non-overnight window, exactly when start ≤ current ≤ end.  Parsing
hypotheses pin down the in-range parsed instants; `is24hours` is unset
on the window path. -/
theorem c7_overnight_window_wraparound (loc : Location) (now : TimeOfDay)
    (ht : HoursToday) (st et : String) (sh sm eh em : Nat)
    (hht : loc.hours_today = some ht) (h24 : ht.is24hours = false)
    (hst : ht.start = some st) (het : ht.endTime = some et)
    (hstne : st ≠ "") (hetne : et ≠ "")
    (hps : parse_time st = some ((sh : Int), (sm : Int)))
    (hpe : parse_time et = some ((eh : Int), (em : Int)))
    (hr : sh ≤ 23 ∧ sm ≤ 59 ∧ eh ≤ 23 ∧ em ≤ 59) :
    (is_location_open_now loc now).1 =
      (if timeLT ⟨eh, em, 0⟩ ⟨sh, sm, 0⟩ = true then
        timeLE ⟨sh, sm, 0⟩ now || timeLE now ⟨eh, em, 0⟩
      else timeLE ⟨sh, sm, 0⟩ now && timeLE now ⟨eh, em, 0⟩) := by
  unfold is_location_open_now
  split
  · next heq => rw [hht] at heq; exact Option.noConfusion heq
  · next ht' heq =>
    rw [hht] at heq
    injection heq with heq'
    subst heq'
    rw [h24]
    simp only [Bool.false_eq_true, if_false]
    split
    · next st' et' heqs heqe =>
      rw [hst] at heqs
      rw [het] at heqe
      injection heqs with heqs'
      injection heqe with heqe'
      subst heqs'
      subst heqe'
      rw [if_neg (by exact fun h => h.elim hstne hetne)]
      rw [hps, hpe]
      split
      · next sh' sm' eh' em' heq1 heq2 =>
        injection heq1 with h1
        injection heq2 with h2
        injection h1 with ha hb
        injection h2 with hc hd
        subst ha; subst hb; subst hc; subst hd
        rw [if_pos ⟨Int.natCast_nonneg sh, by exact_mod_cast hr.1,
          Int.natCast_nonneg sm, by exact_mod_cast hr.2.1,
          Int.natCast_nonneg eh, by exact_mod_cast hr.2.2.1,
          Int.natCast_nonneg em, by exact_mod_cast hr.2.2.2⟩]
        simp only [Int.toNat_natCast]
        split
        · next hov =>
          by_cases hopen : (timeLE ⟨sh, sm, 0⟩ now || timeLE now ⟨eh, em, 0⟩) = true
          · rw [if_pos hopen, hopen]
          · rw [if_neg hopen]
            rw [closed_status_fst]
            simp only [Bool.not_eq_true] at hopen
            exact hopen.symm
        · next hov =>
          by_cases hopen : (timeLE ⟨sh, sm, 0⟩ now && timeLE now ⟨eh, em, 0⟩) = true
          · rw [if_pos hopen, hopen]
          · rw [if_neg hopen]
            rw [closed_status_fst]
            simp only [Bool.not_eq_true] at hopen
            exact hopen.symm
      · next hne =>
        exact (hne sh sm eh em rfl rfl).elim
    · next hne =>
      exact (hne st et hst het).elim

/-- The spec's overnight example facility: open 8:00 am to 2:00 am. -/
def overnight_example_loc : Location :=
  ⟨some "1", some "Overnight", some "5 Pine St", none, [],
   some ⟨false, some "8:00 am", some "2:00 am"⟩, false, false⟩

/-- Witness for C7: the 8:00 am – 2:00 am facility evaluated at 1:00 am
is open (overnight wraparound). -/
theorem c7_overnight_window_wraparound_witness :
    (is_location_open_now overnight_example_loc ⟨1, 0, 0⟩).1 = true :=
  (c7_overnight_window_wraparound overnight_example_loc ⟨1, 0, 0⟩
    ⟨false, some "8:00 am", some "2:00 am"⟩ "8:00 am" "2:00 am" 8 0 2 0
    rfl rfl rfl rfl (by decide) (by decide) (by decide) (by decide)
    (by decide)).trans (by decide)

/-- Modelled from the spec: the `"<h>[:mm] am|pm"` time-string grammar of
the hours evaluator's contract (one or two hour digits, optional
colon-plus-two-digit minutes, a space, then `am` or `pm`).  Used only to
state the frozen claim's notion of "malformed"; the source's parser is
the separate `parse_time` above. -/
def spec_time_format_ok (s : String) : Bool :=
  let l := s.data
  let hd := l.takeWhile Char.isDigit
  let rest := l.dropWhile Char.isDigit
  let rest2 : Option (List Char) :=
    match rest with
    | ':' :: m1 :: m2 :: r => if m1.isDigit && m2.isDigit then some r else none
    | _ => some rest
  (!hd.isEmpty) && (hd.length ≤ 2) &&
    (match rest2 with
     | some (' ' :: a :: m :: []) => ((a == 'a') || (a == 'p')) && (m == 'm')
     | _ => false)

/-- A facility whose hour strings are bare 24-hour numerals, outside the
spec's `"<h>[:mm] am|pm"` grammar but accepted by the code's parser. -/
def numeric_hours_loc : Location :=
  ⟨some "1", some "Numeric", some "6 Oak St", none, [],
   some ⟨false, some "8", some "17"⟩, false, false⟩

/-- Claim C8, counterexample. `"8"` and `"17"` are unparseable in the spec's
`"<h>[:mm] am|pm"` grammar, yet the code's lenient parser accepts them as
8:00 and 17:00 and reports the facility open at noon instead of returning
`(false, "Hours unavailable")`. -/
theorem c8_counterexample_lenient_parsing :
    spec_time_format_ok "8" = false ∧ spec_time_format_ok "17" = false ∧
    spec_time_format_ok "8:00 am" = true ∧
    is_location_open_now numeric_hours_loc ⟨12, 0, 0⟩ = (true, "Open now") := by
  refine ⟨by decide, by decide, by decide, by decide⟩

/-- Claim C8, amended. Whenever the code's own time parsing of the
`hoursToday` window fails — a field that is not a CPython base-10
numeral, or parsed values outside `datetime`'s valid range (negative, or
past 23 hours / 59 minutes) — `isOpenNow` returns
`(false, "Hours unavailable")` (the caught-exception fallback; as a total
function the model can raise nothing), and the same fallback is returned
when `hoursToday` is absent.  Strings outside the spec's
`"<h>[:mm] am|pm"` grammar that the lenient parser accepts (bare
numerals, signed numerals such as `"+5"`, underscore-separated numerals
such as `"1_0"`) are *not* rejected. -/
theorem c8_amended_parse_failure_fallback (loc : Location) (now : TimeOfDay) :
    (loc.hours_today = none → is_location_open_now loc now = (false, "Hours unavailable")) ∧
    (∀ ht, loc.hours_today = some ht → ht.is24hours = false →
      ∀ st et, ht.start = some st → ht.endTime = some et → st ≠ "" → et ≠ "" →
      (parse_time st = none ∨ parse_time et = none ∨
        (∀ sh sm eh em : Int, parse_time st = some (sh, sm) → parse_time et = some (eh, em) →
          ¬(0 ≤ sh ∧ sh ≤ 23 ∧ 0 ≤ sm ∧ sm ≤ 59 ∧
            0 ≤ eh ∧ eh ≤ 23 ∧ 0 ≤ em ∧ em ≤ 59))) →
      is_location_open_now loc now = (false, "Hours unavailable")) := by
  constructor
  · intro hnone
    unfold is_location_open_now
    split
    · rfl
    · next ht' heq => rw [hnone] at heq; exact Option.noConfusion heq
  · intro ht hht h24 st et hst het hstne hetne hfail
    unfold is_location_open_now
    split
    · next heq => rw [hht] at heq
    · next ht' heq =>
      rw [hht] at heq
      injection heq with heq'
      subst heq'
      rw [h24]
      simp only [Bool.false_eq_true, if_false]
      split
      · next st' et' heqs heqe =>
        rw [hst] at heqs
        rw [het] at heqe
        injection heqs with heqs'
        injection heqe with heqe'
        subst heqs'
        subst heqe'
        rw [if_neg (by exact fun h => h.elim hstne hetne)]
        split
        · next sh' sm' eh' em' heq1 heq2 =>
          rcases hfail with hf | hf | hf
          · rw [hf] at heq1; exact Option.noConfusion heq1
          · rw [hf] at heq2; exact Option.noConfusion heq2
          · rw [if_neg (hf sh' sm' eh' em' heq1 heq2)]
        · rfl
      · next hne =>
        exact (hne st et hst het).elim

/-- A facility whose hour strings are non-numeric, for the C8 witness. -/
def bad_hours_loc : Location :=
  ⟨some "2", some "Bad", some "7 Oak St", none, [],
   some ⟨false, some "soon", some "late"⟩, false, false⟩

/-- Witness for amended C8: a facility with unparseable hour strings
degrades to the fallback at noon. -/
theorem c8_amended_parse_failure_fallback_witness :
    is_location_open_now bad_hours_loc ⟨12, 0, 0⟩ = (false, "Hours unavailable") :=
  (c8_amended_parse_failure_fallback bad_hours_loc ⟨12, 0, 0⟩).2
    ⟨false, some "soon", some "late"⟩ rfl rfl "soon" "late" rfl rfl
    (by decide) (by decide) (Or.inl (by decide))

theorem keyword_match_general_service (loc : Location) (s : String)
    (h : pyStrip (pyLower s) ∈ very_general_queries ∨
         ∃ t ∈ general_terms, strContains (pyStrip (pyLower s)) t = true) :
    (keyword_location_match loc s).1 = true := by
  unfold keyword_location_match
  by_cases hempty : pyStrip s = ""
  · rw [if_pos hempty]
  · rw [if_neg hempty]
    by_cases hvg : very_general_queries.contains (pyStrip (pyLower s)) = true
    · simp only [hvg, if_true]
    · simp only [hvg, Bool.false_eq_true, if_false]
      have hgen : general_terms.any
          (fun t => strContains (pyStrip (pyLower s)) t) = true := by
        rcases h with h | ⟨t, ht, hc⟩
        · exact absurd (List.elem_eq_true_of_mem h) (by simpa [List.contains] using hvg)
        · exact List.any_eq_true.mpr ⟨t, ht, hc⟩
      by_cases hscan : scan_services
          (expand_reason_words (pyWords (pyStrip (pyLower s))))
          (pyStrip (pyLower s)) loc.services = true
      · simp only [hscan, if_true]
      · simp only [hscan, Bool.false_eq_true, if_false, hgen, if_true]

/-- Claim C9. For every facility, regardless of its declared service
catalog, `location_offers_services` returns true whenever every required
service string — lowercased and trimmed, as the matcher normalizes it —
is either a member of the fixed very-general-query list or contains one
of the general healthcare terms ("care", "help", "medical", "health",
"doctor", "clinic", "hospital") as a substring: such filter terms never
exclude any facility. -/
theorem c9_general_service_filters_match_all (loc : Location) (required : List String)
    (h : ∀ s ∈ required, pyStrip (pyLower s) ∈ very_general_queries ∨
          ∃ t ∈ general_terms, strContains (pyStrip (pyLower s)) t = true) :
    location_offers_services loc required = true := by
  unfold location_offers_services location_matches_reason
  rw [List.all_eq_true]
  intro s hs
  exact keyword_match_general_service loc s (h s hs)

/-- Witness for C9: a facility with an empty service catalog still passes
the explicit filter `["urgent care", "medical help"]`. -/
theorem c9_general_service_filters_match_all_witness :
    location_offers_services
      ⟨some "1", some "Plain", some "8 Oak St", none, [], none, false, false⟩
      ["urgent care", "medical help"] = true :=
  c9_general_service_filters_match_all
    ⟨some "1", some "Plain", some "8 Oak St", none, [], none, false, false⟩
    ["urgent care", "medical help"] (by decide)

end Pizzaz
